import Mathlib

/-!
Verification of the xuperunion kernel contract (package `kernel` in the
repository source).  The Go code is shallowly embedded: the kernel instance,
descriptor and state-meta data types are translated structurally; external
collaborators (ledger, crypto client, filesystem primitives, chain register)
are modelled as an oracle record `Env` whose fields carry the results those
calls would return, while all control flow, argument validation, comparisons
and state writes of the kernel package itself are translated faithfully from
the source.  Go `float64` descriptor numbers that the code narrows with
`int64(...)` are modelled as `Int`; Go maps are modelled as association
lists; errors are an inductive `KErr` mirroring the package error values
plus `fmt.Errorf` messages.
-/

namespace Xuper

/-- Gas price record (pb.GasPrice / ledger.GasPrice): four int64 rates. -/
structure GasPrice where
  cpuRate : Int
  memRate : Int
  diskRate : Int
  xfeeRate : Int
deriving DecidableEq

/-- Invoke request record (pb.InvokeRequest): module, contract, method and an
args map (Go `map[string][]byte`, modelled as an association list). -/
structure InvokeRequest where
  moduleName : String
  contractName : String
  methodName : String
  args : List (String × String)
deriving DecidableEq

/-- One extended output of a stored transaction (pb.TxOutputExt): only the
bucket matters to the kernel (cache invalidation key). -/
structure TxOutputExt where
  bucket : String
deriving DecidableEq

/-- The transaction returned by `LedgerObj.QueryTransaction`: the fields the
kernel touches (txid bytes, desc, extended outputs). -/
structure StoredTx where
  txid : String
  desc : String
  txOutputsExt : List TxOutputExt
deriving DecidableEq

/-- The carrying transaction of a descriptor (pb.Transaction): the kernel uses
its id, its source addresses and its per-address output amounts. -/
structure Tx where
  txid : String
  fromAddrs : List String
  amounts : List (String × Int)
deriving DecidableEq

/-- Dynamically typed descriptor argument, as the JSON decoder yields it.  A
`num` models a Go `float64` carrying an integral value (the code narrows with
`int64(...)`); `gas` and `inv` model records that `mapstructure.Decode`
successfully decodes into `ledger.GasPrice` / `ledger.InvokeRequest`;
`invList` models a JSON list each of whose elements decodes into an
`InvokeRequest`. -/
inductive AVal where
  | str : String → AVal
  | num : Int → AVal
  | gas : GasPrice → AVal
  | inv : InvokeRequest → AVal
  | invList : List InvokeRequest → AVal
deriving DecidableEq

/-- contract.TxDesc: method name, argument bag and carrying transaction. -/
structure TxDesc where
  method : String
  args : List (String × AVal)
  tx : Tx
deriving DecidableEq

/-- config.KernelConfig.  `minNewChainAmount` is a decimal string in Go,
parsed with big.Int SetString; modelled directly as the parsed integer. -/
structure KernelConfig where
  newChainWhiteList : List String
  disableCreateChainWhiteList : Bool
  minNewChainAmount : Int
  enableStopChain : Bool
  modifyBlockAddr : String
deriving DecidableEq

/-- The kernel contract instance: data directory, chain name, whether a
ChainRegister is wired, and the kernel configuration. -/
structure Kernel where
  datapath : String
  bcName : String
  registerPresent : Bool
  kernelConfig : KernelConfig
deriving DecidableEq

/-- Kernel error values (the package-level `errors.New` values) plus `msg`
for ad-hoc `fmt.Errorf` errors. -/
inductive KErr where
  | blockChainExist
  | createBlockChain
  | methodNotImplemented
  | noEnoughUTXO
  | addrNotInWhiteList
  | permissionDenied
  | invalidChainName
  | msg : String → KErr
deriving DecidableEq

/-- Observable calls the kernel makes on its collaborators: chain register
calls, ledger reads, state-model cache deletions, StateMeta setter calls and
the historical-rewrite persistence call. -/
inductive Event where
  | registerChain : String → Event
  | unloadChain : String → Event
  | queryTx : String → Event
  | bucketCacheDelete : String → String → Nat → Event
  | metaUpdate : String → Event
  | updateBCD : String → Event
deriving DecidableEq

/-- The StateMeta (UtxoMeta) parameter store: the six guarded parameters. -/
structure StateMeta where
  maxBlockSize : Int
  irreversibleSlideWindow : Int
  newAccountResourceAmount : Int
  gasPrice : GasPrice
  forbiddenContract : InvokeRequest
  reservedContracts : List InvokeRequest
deriving DecidableEq

/-- The state a kernel invocation can observe or mutate: the filesystem
(existing directory paths and names moved to the trash), the StateMeta store
and the log of collaborator calls. -/
structure KState where
  dirs : List String
  trashNames : List String
  meta : StateMeta
  events : List Event
deriving DecidableEq

/-- Oracle record for external collaborators: each field is the result the
corresponding external call returns during this invocation.  `Option String`
fields are `none` on success and `some m` when the call fails with message
`m`.  `contextPresent` models `k.context != nil` together with the non-nil
ledger/utxoMeta member the handler checks. -/
structure Env where
  contextPresent : Bool
  rootConfigParseOk : Bool
  ledgerNoFee : Bool
  mkdirErr : Option String
  writeFileErr : Option String
  kvParseErr : Option String
  cryptoParseErr : Option String
  newLedgerErr : Option String
  genRootTxErr : Option String
  formatBlockErr : Option String
  newUtxoVMErr : Option String
  initPermErr : Option String
  trashMkdirErr : Option String
  renameErr : Option String
  registerErr : Option String
  unloadErr : Option String
  updateMetaErr : Option String
  createClientOk : Bool
  getKeyOk : Bool
  addrMatch : Bool
  verifyECDSAok : Bool
  verifyECDSAerr : Option String
  ledgerTx : Option StoredTx
  digestErr : Option String
  updateBCDerr : Option String

/-- `desc.Args[name]` (absent and JSON null collapse to `none`). -/
def lookupArg (d : TxDesc) (name : String) : Option AVal :=
  d.args.lookup name

/-- Modelled from the spec: `Tx.FromAddrInList` (defined outside the given
source files) — the transaction source-address set must intersect the
whitelist. -/
def fromAddrInList (t : Tx) (l : List String) : Bool :=
  t.fromAddrs.any (fun a => l.contains a)

/-- Modelled from the spec: `Tx.GetAmountByAddress` (defined outside the
given source files) — the transaction self-payment to the given address. -/
def getAmountByAddress (t : Tx) (addr : String) : Int :=
  match t.amounts.lookup addr with
  | some v => v
  | none => 0

/-- The `int64(desc.Args[name].(float64))` narrowing; only evaluated after
validation has established the argument is a number. -/
def numArg (d : TxDesc) (name : String) : Int :=
  match lookupArg d name with
  | some (.num x) => x
  | _ => 0

/-- The args-map inclusion loop shared by the forbidden/reserved comparisons:
every key of `old` must be present in `orig` with a deep-equal value. -/
def argsIncl (old orig : List (String × String)) : Bool :=
  old.all (fun kv => orig.lookup kv.1 == some kv.2)

/-- Well-formedness of an args association list as a model of a Go map: each
entry is what lookup of its key returns (true of every Go map image). -/
def argsWF (r : InvokeRequest) : Bool :=
  argsIncl r.args r.args

/-- The per-element comparison of `runUpdateReservedContract` (and the same
shape used by `runUpdateForbiddenContract`): names equal, args maps of equal
size, and every old key present in orig with a deep-equal value. -/
def invMatch (vold vorig : InvokeRequest) : Bool :=
  vold.moduleName == vorig.moduleName &&
  vold.contractName == vorig.contractName &&
  vold.methodName == vorig.methodName &&
  vold.args.length == vorig.args.length &&
  argsIncl vold.args vorig.args

/-- The nested loop of `runUpdateReservedContract`: `for i, vold` over the
old list, `for j, vorig` over the live list, comparing only when `i == j`.
Indices beyond the shorter list are never compared (no length check). -/
def reservedCmp : List InvokeRequest → List InvokeRequest → Bool
  | [], _ => true
  | _ :: _, [] => true
  | o :: os, g :: gs => invMatch o g && reservedCmp os gs

/-- Value of a hex digit, accepting both cases (encoding/hex semantics). -/
def hexDigitVal (c : Char) : Option Nat :=
  if c.isDigit then some (c.toNat - 48)
  else if c ≥ 'a' && c ≤ 'f' then some (c.toNat - 87)
  else if c ≥ 'A' && c ≤ 'F' then some (c.toNat - 55)
  else none

/-- hex.DecodeString over the character list: fails on odd length or on a
non-hex character. -/
def hexDecodeChars : List Char → Option (List Nat)
  | [] => some []
  | [_] => none
  | c1 :: c2 :: rest =>
    match hexDigitVal c1, hexDigitVal c2, hexDecodeChars rest with
    | some h, some l, some bs => some ((16 * h + l) :: bs)
    | _, _, _ => none

/-- hex.DecodeString. -/
def hexDecode (s : String) : Option (List Nat) :=
  hexDecodeChars s.data

/-- A StateMeta setter call (`UtxoMeta.UpdateX(..., k.context.UtxoBatch)`):
the call is recorded as an event; on oracle failure the error is returned and
the store is unchanged, on success the field is written. -/
def setMeta (st : KState) (field : String) (f : StateMeta → StateMeta)
    (env : Env) : Option KErr × KState :=
  let st1 : KState := { st with events := st.events ++ [Event.metaUpdate field] }
  match env.updateMetaErr with
  | some e => (some (.msg e), st1)
  | none => (none, { st1 with meta := f st1.meta })

/-- `os.RemoveAll(fullpath)` on the modelled filesystem. -/
def rmDir (st : KState) (p : String) : KState :=
  { st with dirs := st.dirs.filter (fun q => q != p) }

/-- Presence/type check of one numeric argument, as done inside the loops of
`validateUpdateMaxBlockSize`, `validateUpdateIrreversibleSlideWindow` and
`validateUpdateNewAccountResourceAmount` (`word` is the misspelled or spelled
noun in the respective message). -/
def checkNumArg (d : TxDesc) (argName : String) (word : String) : Option KErr :=
  match lookupArg d argName with
  | none => some (.msg ("miss argument in " ++ word ++ ": " ++ argName))
  | some (.num _) => none
  | some _ => some (.msg ("invalid arg type: " ++ argName))

/-- validateUpdateMaxBlockSize: both block-size arguments present as numbers. -/
def validateUpdateMaxBlockSizeCore (d : TxDesc) : Option KErr :=
  match checkNumArg d "new_block_size" "contact" with
  | some e => some e
  | none => checkNumArg d "old_block_size" "contact"

/-- State-threaded form of validateUpdateMaxBlockSize; the Go body touches no
kernel state, so the state passes through unchanged. -/
def validateUpdateMaxBlockSize (d : TxDesc) (st : KState) : Option KErr × KState :=
  (validateUpdateMaxBlockSizeCore d, st)

/-- validateUpdateIrreversibleSlideWindow. -/
def validateUpdateIrreversibleSlideWindowCore (d : TxDesc) : Option KErr :=
  match checkNumArg d "new_irreversible_slide_window" "contact" with
  | some e => some e
  | none => checkNumArg d "old_irreversible_slide_window" "contact"

/-- State-threaded form of validateUpdateIrreversibleSlideWindow. -/
def validateUpdateIrreversibleSlideWindow (d : TxDesc) (st : KState) : Option KErr × KState :=
  (validateUpdateIrreversibleSlideWindowCore d, st)

/-- validateUpdateNewAccountResourceAmount (message says "contract" here). -/
def validateUpdateNewAccountResourceAmountCore (d : TxDesc) : Option KErr :=
  match checkNumArg d "new_new_account_resource_amount" "contract" with
  | some e => some e
  | none => checkNumArg d "old_new_account_resource_amount" "contract"

/-- State-threaded form of validateUpdateNewAccountResourceAmount. -/
def validateUpdateNewAccountResourceAmount (d : TxDesc) (st : KState) : Option KErr × KState :=
  (validateUpdateNewAccountResourceAmountCore d, st)

/-- validateUpdateGasPrice: the named argument must be present and decodable
into a gas-price record. -/
def validateUpdateGasPriceCore (d : TxDesc) (name : String) : Except KErr GasPrice :=
  match lookupArg d name with
  | none => .error (.msg ("missing argument in contract: " ++ name))
  | some (.gas g) => .ok g
  | some _ => .error (.msg ("validateUpdateGasPrice argName:" ++ name ++ " invalid"))

/-- State-threaded form of validateUpdateGasPrice. -/
def validateUpdateGasPrice (d : TxDesc) (name : String) (st : KState) :
    Except KErr GasPrice × KState :=
  (validateUpdateGasPriceCore d name, st)

/-- validateUpdateForbiddenContract: the named argument must be present and
decodable into a single invoke-request record. -/
def validateUpdateForbiddenContractCore (d : TxDesc) (name : String) :
    Except KErr InvokeRequest :=
  match lookupArg d name with
  | none => .error (.msg ("miss argument in contract: " ++ name))
  | some (.inv r) => .ok r
  | some _ => .error (.msg ("validateUpdateForbiddenContract argName:" ++ name ++ " invalid"))

/-- State-threaded form of validateUpdateForbiddenContract. -/
def validateUpdateForbiddenContract (d : TxDesc) (name : String) (st : KState) :
    Except KErr InvokeRequest × KState :=
  (validateUpdateForbiddenContractCore d name, st)

/-- One turn of the argName loop in validateUpdateReservedContract: the
argument must be present, be a list, decode element-wise, and every element
must carry a non-empty module name. -/
def checkReservedArg (d : TxDesc) (argName : String) : Except KErr (List InvokeRequest) :=
  match lookupArg d argName with
  | none => .error (.msg ("miss argument in contact: " ++ argName))
  | some (.invList params) =>
    if params.all (fun line => line.moduleName != "") then .ok params
    else .error (.msg "you should maintain the format like this []")
  | some _ => .error (.msg ("validateUpdateReservedContract argName:" ++ argName ++ " invalid"))

/-- validateUpdateReservedContract: both symmetric lists are checked, and the
one selected by `name` is returned. -/
def validateUpdateReservedContractCore (d : TxDesc) (name : String) :
    Except KErr (List InvokeRequest) :=
  match checkReservedArg d "old_reserved_contracts" with
  | .error e => .error e
  | .ok oldP =>
    match checkReservedArg d "new_reserved_contracts" with
    | .error e => .error e
    | .ok newP =>
      .ok (if name == "old_reserved_contracts" then oldP
           else if name == "new_reserved_contracts" then newP else [])

/-- State-threaded form of validateUpdateReservedContract. -/
def validateUpdateReservedContract (d : TxDesc) (name : String) (st : KState) :
    Except KErr (List InvokeRequest) × KState :=
  (validateUpdateReservedContractCore d name, st)

/-- validateCreateBC: name and data present as strings, and data must parse
into a ledger.RootConfig (the parse itself is external, oracle
`rootConfigParseOk`). -/
def validateCreateBCCore (d : TxDesc) (env : Env) : Except KErr (String × String) :=
  match lookupArg d "name" with
  | none => .error (.msg "block chain name is empty")
  | some nv =>
    match lookupArg d "data" with
    | none => .error (.msg "first block data is empty")
    | some dv =>
      match nv with
      | .str bcName =>
        match dv with
        | .str bcData =>
          if env.rootConfigParseOk then .ok (bcName, bcData)
          else .error (.msg "first block data error")
        | _ => .error (.msg "the type of data should be string")
      | _ => .error (.msg "the type of name should be string")

/-- State-threaded form of validateCreateBC. -/
def validateCreateBC (d : TxDesc) (env : Env) (st : KState) :
    Except KErr (String × String) × KState :=
  (validateCreateBCCore d env, st)

/-- The cache-invalidation loop of validateUpdateBlockChainData: one
`BucketCacheDelete(bucket, MakeVersion(tx.Txid, i))` per extended output. -/
def cacheDeletions (txid : String) : List TxOutputExt → Nat → List Event
  | [], _ => []
  | o :: rest, i => Event.bucketCacheDelete o.bucket txid i :: cacheDeletions txid rest (i + 1)

/-- validateUpdateBlockChainData.  Unlike every other validator this one
queries the ledger for the referenced transaction and deletes state-model
cache entries (both recorded as events).  The zeroing of the queried tx
`Desc`/`TxOutputsExt` feeds only the digest recomputation, which is external
(oracle `digestErr`).  Note the final signature check: Go runs
`ok, err = VerifyECDSA(...); if err != nil || !ok { return err }`, so when
verification reports ok=false with a nil error the function returns nil. -/
def validateUpdateBlockChainData (_k : Kernel) (d : TxDesc) (env : Env) (st : KState) :
    Option KErr × KState :=
  if (lookupArg d "txid").isNone || (lookupArg d "publicKey").isNone ||
     (lookupArg d "sign").isNone then
    (some (.msg "miss argument in contact: txid, publicKey, sign"), st)
  else
    match lookupArg d "txid" with
    | some (.str txid) =>
      match lookupArg d "publicKey" with
      | some (.str _pk) =>
        if !env.createClientOk then
          (some (.msg "CreateCryptoClientFromJSONPublicKey error"), st)
        else if !env.getKeyOk then
          (some (.msg "GetEcdsaPublicKeyFromJsonStr error"), st)
        else if !env.addrMatch then
          (some (.msg "address and public key not match"), st)
        else
          match lookupArg d "sign" with
          | some (.str sign) =>
            match hexDecode sign with
            | none => (some (.msg "invalide arg type: sign byte"), st)
            | some _bytesign =>
              match hexDecode txid with
              | none => (some (.msg ("validate updateBlockChainData bad txid:" ++ txid)), st)
              | some _rawTxid =>
                let st1 : KState := { st with events := st.events ++ [Event.queryTx txid] }
                match env.ledgerTx with
                | none => (some (.msg "Modified tx not exist"), st1)
                | some tx =>
                  let st2 : KState :=
                    { st1 with events := st1.events ++ cacheDeletions tx.txid tx.txOutputsExt 0 }
                  match env.digestErr with
                  | some e => (some (.msg e), st2)
                  | none =>
                    match env.verifyECDSAerr with
                    | some e => (some (.msg e), st2)
                    | none =>
                      if !env.verifyECDSAok then
                        (none, st2)
                      else (none, st2)
          | _ => (some (.msg "invalid arg type: sign"), st)
      | _ => (some (.msg "invalid arg type: publicKey"), st)
    | _ => (some (.msg "invalid arg type: txid"), st)

/-- Kernel.CreateBlockChain: create the side-chain directory, write the
genesis file, read the kvengine/crypto selectors, open a ledger, generate and
confirm the root block, open a utxo-vm and initialize the permission model.
Failure of the write/ledger/root-tx/format/utxo-vm steps removes the created
directory; failure of the kvengine/crypto extraction or of the
permission-model initialization returns without removing it (translated as
the source does it).  The `utxovm.Play` error is only logged. -/
def CreateBlockChain (k : Kernel) (env : Env) (name : String) (_data : String)
    (st : KState) : Option KErr × KState :=
  if k.bcName != "xuper" then (some .permissionDenied, st)
  else
    let fullpath := k.datapath ++ "/" ++ name
    if st.dirs.contains fullpath then (some .blockChainExist, st)
    else
      match env.mkdirErr with
      | some e => (some (.msg e), st)
      | none =>
        let st1 : KState := { st with dirs := st.dirs ++ [fullpath] }
        match env.writeFileErr with
        | some e => (some (.msg e), rmDir st1 fullpath)
        | none =>
          match env.kvParseErr with
          | some e => (some (.msg e), st1)
          | none =>
            match env.cryptoParseErr with
            | some e => (some (.msg e), st1)
            | none =>
              match env.newLedgerErr with
              | some e => (some (.msg e), rmDir st1 fullpath)
              | none =>
                match env.genRootTxErr with
                | some e => (some (.msg e), rmDir st1 fullpath)
                | none =>
                  match env.formatBlockErr with
                  | some _ => (some .createBlockChain, rmDir st1 fullpath)
                  | none =>
                    match env.newUtxoVMErr with
                    | some e => (some (.msg e), rmDir st1 fullpath)
                    | none =>
                      match env.initPermErr with
                      | some e => (some (.msg e), st1)
                      | none => (none, st1)

/-- Kernel.RemoveBlockChainData: rename the chain directory into the sibling
trash directory (creating the trash directory if missing, oracle
`trashMkdirErr`; rename result oracle `renameErr`). -/
def RemoveBlockChainData (k : Kernel) (env : Env) (name : String) (st : KState) :
    Option KErr × KState :=
  if k.bcName != "xuper" then (some .permissionDenied, st)
  else
    match env.trashMkdirErr with
    | some e => (some (.msg e), st)
    | none =>
      match env.renameErr with
      | some e => (some (.msg e), st)
      | none =>
        (none, { rmDir st (k.datapath ++ "/" ++ name) with
                 trashNames := st.trashNames ++ [name] })

/-- runCreateBlockChain: validate, root-chain gate, whitelist gate, minimum
investment gate, inner CreateBlockChain (ErrBlockChainExist swallowed), then
register the new chain if a register is wired. -/
def runCreateBlockChain (k : Kernel) (env : Env) (d : TxDesc) (st : KState) :
    Option KErr × KState :=
  match validateCreateBC d env st with
  | (.error e, st1) => (some e, st1)
  | (.ok (bcName, _bcData), st1) =>
    if k.bcName != "xuper" then (some .permissionDenied, st1)
    else if !(fromAddrInList d.tx k.kernelConfig.newChainWhiteList) &&
            !k.kernelConfig.disableCreateChainWhiteList then
      (some .addrNotInWhiteList, st1)
    else
      let nofee := env.ledgerNoFee
      let investment := getAmountByAddress d.tx bcName
      if !nofee && investment < k.kernelConfig.minNewChainAmount then
        (some .noEnoughUTXO, st1)
      else
        match CreateBlockChain k env bcName _bcData st1 with
        | (some e, st2) =>
          if e = .blockChainExist then (none, st2) else (some e, st2)
        | (none, st2) =>
          if k.registerPresent then
            let st3 : KState := { st2 with events := st2.events ++ [Event.registerChain bcName] }
            (env.registerErr.map .msg, st3)
          else (none, st2)

/-- runStopBlockChain: feature flag, name checks, main-chain guard, whitelist
gate, then `register.UnloadBlockChain`.  An unload failure is only logged:
the handler returns nil either way. -/
def runStopBlockChain (k : Kernel) (env : Env) (d : TxDesc) (st : KState) :
    Option KErr × KState :=
  if !k.kernelConfig.enableStopChain then (some .permissionDenied, st)
  else
    match lookupArg d "name" with
    | none => (some .invalidChainName, st)
    | some v =>
      match v with
      | .str bcName =>
        if bcName == "" then (some .invalidChainName, st)
        else if bcName == "xuper" then (some .permissionDenied, st)
        else if !(fromAddrInList d.tx k.kernelConfig.newChainWhiteList) &&
                !k.kernelConfig.disableCreateChainWhiteList then
          (some .addrNotInWhiteList, st)
        else
          let st1 : KState := { st with events := st.events ++ [Event.unloadChain bcName] }
          match env.unloadErr with
          | some _ => (none, st1)
          | none => (none, st1)
      | _ => (some .invalidChainName, st)

/-- rollbackStopBlockChain: argument checks only, then do nothing. -/
def rollbackStopBlockChain (k : Kernel) (_env : Env) (d : TxDesc) (st : KState) :
    Option KErr × KState :=
  if !k.kernelConfig.enableStopChain then (some .permissionDenied, st)
  else
    match lookupArg d "name" with
    | none => (some .invalidChainName, st)
    | some v =>
      match v with
      | .str bcName =>
        if bcName == "" then (some .invalidChainName, st)
        else (none, st)
      | _ => (some .invalidChainName, st)

/-- rollbackCreateBlockChain: validate; if the chain directory does not exist
return nil doing nothing; otherwise move it to the trash and ask the register
to unload the chain. -/
def rollbackCreateBlockChain (k : Kernel) (env : Env) (d : TxDesc) (st : KState) :
    Option KErr × KState :=
  match validateCreateBC d env st with
  | (.error e, st1) => (some e, st1)
  | (.ok (bcName, _), st1) =>
    let fullpath := k.datapath ++ "/" ++ bcName
    if st1.dirs.contains fullpath then
      match RemoveBlockChainData k env bcName st1 with
      | (some e, st2) => (some e, st2)
      | (none, st2) =>
        if k.registerPresent then
          let st3 : KState := { st2 with events := st2.events ++ [Event.unloadChain bcName] }
          ((env.unloadErr.map .msg : Option KErr), st3)
        else (none, st2)
    else (none, st1)

/-- runUpdateMaxBlockSize: validate, compare old against the live value, then
write the new value through the batch. -/
def runUpdateMaxBlockSize (_k : Kernel) (env : Env) (d : TxDesc) (st : KState) :
    Option KErr × KState :=
  if !env.contextPresent then
    (some (.msg "failed to update block size, because no ledger object in context"), st)
  else
    match validateUpdateMaxBlockSize d st with
    | (some e, st1) => (some e, st1)
    | (none, st1) =>
      let newBlockSize := numArg d "new_block_size"
      let oldBlockSize := numArg d "old_block_size"
      let cur := st1.meta.maxBlockSize
      if oldBlockSize != cur then
        (some (.msg "unexpected old block size"), st1)
      else
        setMeta st1 "UpdateMaxBlockSize" (fun m => { m with maxBlockSize := newBlockSize }) env

/-- rollbackUpdateMaxBlockSize: validate, then write the old value with no
comparison. -/
def rollbackUpdateMaxBlockSize (_k : Kernel) (env : Env) (d : TxDesc) (st : KState) :
    Option KErr × KState :=
  if !env.contextPresent then
    (some (.msg "failed to update block size, because no ledger object in context"), st)
  else
    match validateUpdateMaxBlockSize d st with
    | (some e, st1) => (some e, st1)
    | (none, st1) =>
      let oldBlockSize := numArg d "old_block_size"
      setMeta st1 "UpdateMaxBlockSize" (fun m => { m with maxBlockSize := oldBlockSize }) env

/-- runUpdateIrreversibleSlideWindow (the mismatch message reuses the
block-size wording, as in the source). -/
def runUpdateIrreversibleSlideWindow (_k : Kernel) (env : Env) (d : TxDesc) (st : KState) :
    Option KErr × KState :=
  if !env.contextPresent then
    (some (.msg "failed to update irreversible slide window, because no ledger object in context"), st)
  else
    match validateUpdateIrreversibleSlideWindow d st with
    | (some e, st1) => (some e, st1)
    | (none, st1) =>
      let newW := numArg d "new_irreversible_slide_window"
      let oldW := numArg d "old_irreversible_slide_window"
      let cur := st1.meta.irreversibleSlideWindow
      if oldW != cur then
        (some (.msg "unexpected old block size"), st1)
      else
        setMeta st1 "UpdateIrreversibleSlideWindow"
          (fun m => { m with irreversibleSlideWindow := newW }) env

/-- rollbackUpdateIrreversibleSlideWindow. -/
def rollbackUpdateIrreversibleSlideWindow (_k : Kernel) (env : Env) (d : TxDesc) (st : KState) :
    Option KErr × KState :=
  if !env.contextPresent then
    (some (.msg "failed to update block size, becuase no ledger object in context"), st)
  else
    match validateUpdateIrreversibleSlideWindow d st with
    | (some e, st1) => (some e, st1)
    | (none, st1) =>
      let oldW := numArg d "old_irreversible_slide_window"
      setMeta st1 "UpdateIrreversibleSlideWindow"
        (fun m => { m with irreversibleSlideWindow := oldW }) env

/-- runUpdateNewAccountResourceAmount.  The source constructs the mismatch
error with `fmt.Errorf` but never returns it (the statement's value is
discarded), so execution falls through to the setter even when the old value
disagrees with the live one. -/
def runUpdateNewAccountResourceAmount (_k : Kernel) (env : Env) (d : TxDesc) (st : KState) :
    Option KErr × KState :=
  if !env.contextPresent then
    (some (.msg "failed to update newAccountResourceAmount, because no ledger object in context"), st)
  else
    match validateUpdateNewAccountResourceAmount d st with
    | (some e, st1) => (some e, st1)
    | (none, st1) =>
      let newA := numArg d "new_new_account_resource_amount"
      let oldA := numArg d "old_new_account_resource_amount"
      let cur := st1.meta.newAccountResourceAmount
      let _discardedMismatchError : Option KErr :=
        if oldA != cur then some (.msg "unexpected old newAccountResourceAmount") else none
      setMeta st1 "UpdateNewAccountResourceAmount"
        (fun m => { m with newAccountResourceAmount := newA }) env

/-- rollbackUpdateNewAccountResourceAmount. -/
def rollbackUpdateNewAccountResourceAmount (_k : Kernel) (env : Env) (d : TxDesc) (st : KState) :
    Option KErr × KState :=
  if !env.contextPresent then
    (some (.msg "failed to update newAccountResourceAmount, because no ledger object in context"), st)
  else
    match validateUpdateNewAccountResourceAmount d st with
    | (some e, st1) => (some e, st1)
    | (none, st1) =>
      let oldA := numArg d "old_new_account_resource_amount"
      setMeta st1 "UpdateNewAccountResourceAmount"
        (fun m => { m with newAccountResourceAmount := oldA }) env

/-- runUpdateGasPrice: validate the old record, compare component-wise with
the live gas price, validate the new record, write it. -/
def runUpdateGasPrice (_k : Kernel) (env : Env) (d : TxDesc) (st : KState) :
    Option KErr × KState :=
  if !env.contextPresent then
    (some (.msg "failed to update gas price, because no utxoMeta in context"), st)
  else
    match validateUpdateGasPrice d "old_gas_price" st with
    | (.error e, st1) => (some e, st1)
    | (.ok oldP, st1) =>
      let orig := st1.meta.gasPrice
      if oldP.cpuRate != orig.cpuRate || oldP.memRate != orig.memRate ||
         oldP.diskRate != orig.diskRate || oldP.xfeeRate != orig.xfeeRate then
        (some (.msg "old_gas_price values are not equal to the current node"), st1)
      else
        match validateUpdateGasPrice d "new_gas_price" st1 with
        | (.error e, st2) => (some e, st2)
        | (.ok newP, st2) =>
          setMeta st2 "UpdateGasPrice" (fun m => { m with gasPrice := newP }) env

/-- rollbackUpdateGasPrice: validate the old record, write it unconditionally. -/
def rollbackUpdateGasPrice (_k : Kernel) (env : Env) (d : TxDesc) (st : KState) :
    Option KErr × KState :=
  if !env.contextPresent then
    (some (.msg "failed to rollback gas price, because no utxoMeta in context"), st)
  else
    match validateUpdateGasPrice d "old_gas_price" st with
    | (.error e, st1) => (some e, st1)
    | (.ok oldP, st1) =>
      setMeta st1 "UpdateGasPrice" (fun m => { m with gasPrice := oldP }) env

/-- runUpdateForbiddenContract: validate the old record, compare names and
args-map size, then check every old key against the live args map, validate
the new record, write it. -/
def runUpdateForbiddenContract (_k : Kernel) (env : Env) (d : TxDesc) (st : KState) :
    Option KErr × KState :=
  if !env.contextPresent then
    (some (.msg "failed to update forbidden contract, because no ledger object in context"), st)
  else
    match validateUpdateForbiddenContract d "old_forbidden_contract" st with
    | (.error e, st1) => (some e, st1)
    | (.ok oldP, st1) =>
      let orig := st1.meta.forbiddenContract
      if orig.moduleName != oldP.moduleName || orig.contractName != oldP.contractName ||
         orig.methodName != oldP.methodName || orig.args.length != oldP.args.length then
        (some (.msg "old_forbidden_contract conf does not match current node forbidden_contract conf"), st1)
      else if !(argsIncl oldP.args orig.args) then
        (some (.msg "old_forbidden_contract args do not match current node forbidden_contract args"), st1)
      else
        match validateUpdateForbiddenContract d "new_forbidden_contract" st1 with
        | (.error e, st2) => (some e, st2)
        | (.ok newP, st2) =>
          setMeta st2 "UpdateForbiddenContract" (fun m => { m with forbiddenContract := newP }) env

/-- rollbackUpdateForbiddenContract. -/
def rollbackUpdateForbiddenContract (_k : Kernel) (env : Env) (d : TxDesc) (st : KState) :
    Option KErr × KState :=
  if !env.contextPresent then
    (some (.msg "failed to update forbidden contract, because no ledger object in context"), st)
  else
    match validateUpdateForbiddenContract d "old_forbidden_contract" st with
    | (.error e, st1) => (some e, st1)
    | (.ok oldP, st1) =>
      setMeta st1 "UpdateForbiddenContract" (fun m => { m with forbiddenContract := oldP }) env

/-- runUpdateReservedContract: validate both lists, compare the old list with
the live list index-by-index over the common indices (no length check), then
write the new list. -/
def runUpdateReservedContract (_k : Kernel) (env : Env) (d : TxDesc) (st : KState) :
    Option KErr × KState :=
  if !env.contextPresent then
    (some (.msg "failed to update reservered contract, because no ledger object in context"), st)
  else
    match validateUpdateReservedContract d "old_reserved_contracts" st with
    | (.error e, st1) => (some e, st1)
    | (.ok oldP, st1) =>
      if !(reservedCmp oldP st1.meta.reservedContracts) then
        (some (.msg "old_reserved_contracts values are not equal to the current node"), st1)
      else
        match validateUpdateReservedContract d "new_reserved_contracts" st1 with
        | (.error e, st2) => (some e, st2)
        | (.ok newP, st2) =>
          setMeta st2 "UpdateReservedContracts" (fun m => { m with reservedContracts := newP }) env

/-- rollbackUpdateReservedContract. -/
def rollbackUpdateReservedContract (_k : Kernel) (env : Env) (d : TxDesc) (st : KState) :
    Option KErr × KState :=
  if !env.contextPresent then
    (some (.msg "failed to update reservered contract, because no ledger object in context"), st)
  else
    match validateUpdateReservedContract d "old_reserved_contracts" st with
    | (.error e, st1) => (some e, st1)
    | (.ok oldP, st1) =>
      setMeta st1 "UpdateReservedContracts" (fun m => { m with reservedContracts := oldP }) env

/-- runUpdateBlockChainData: context gate, validate (with its ledger read and
cache invalidation), then ask the ledger to persist the rewrite. -/
def runUpdateBlockChainData (k : Kernel) (env : Env) (d : TxDesc) (st : KState) :
    Option KErr × KState :=
  if !env.contextPresent then
    (some (.msg "failed to update blockchain data, because no ledger object in context"), st)
  else
    match validateUpdateBlockChainData k d env st with
    | (some e, st1) => (some e, st1)
    | (none, st1) =>
      let txid := match lookupArg d "txid" with
        | some (.str s) => s
        | _ => ""
      let st2 : KState := { st1 with events := st1.events ++ [Event.updateBCD txid] }
      match env.updateBCDerr with
      | some e => (some (.msg e), st2)
      | none => (none, st2)

/-- rollbackUpdateBlockChainData: context gate only, then do nothing. -/
def rollbackUpdateBlockChainData (_k : Kernel) (env : Env) (_d : TxDesc) (st : KState) :
    Option KErr × KState :=
  if !env.contextPresent then
    (some (.msg "failed to modify blockchain data, because no ledger object in context"), st)
  else (none, st)

/-- The uniform type of a kernel method handler (KernelMethodFunc). -/
def KernelMethodFunc : Type :=
  Kernel → Env → TxDesc → KState → Option KErr × KState

/-- runKernelFuncMap: the forward handler table. -/
def runKernelFuncMap : List (String × KernelMethodFunc) :=
  [("CreateBlockChain", runCreateBlockChain),
   ("UpdateMaxBlockSize", runUpdateMaxBlockSize),
   ("UpdateReservedContract", runUpdateReservedContract),
   ("UpdateForbiddenContract", runUpdateForbiddenContract),
   ("UpdateBlockChainData", runUpdateBlockChainData),
   ("UpdateNewAccountResourceAmount", runUpdateNewAccountResourceAmount),
   ("UpdateIrreversibleSlideWindow", runUpdateIrreversibleSlideWindow),
   ("UpdateGasPrice", runUpdateGasPrice),
   ("StopBlockChain", runStopBlockChain)]

/-- rollbackKernelFuncMap: the rollback handler table. -/
def rollbackKernelFuncMap : List (String × KernelMethodFunc) :=
  [("CreateBlockChain", rollbackCreateBlockChain),
   ("UpdateMaxBlockSize", rollbackUpdateMaxBlockSize),
   ("UpdateReservedContract", rollbackUpdateReservedContract),
   ("UpdateForbiddenContract", rollbackUpdateForbiddenContract),
   ("UpdateBlockChainData", rollbackUpdateBlockChainData),
   ("UpdateNewAccountResourceAmount", rollbackUpdateNewAccountResourceAmount),
   ("UpdateIrreversibleSlideWindow", rollbackUpdateIrreversibleSlideWindow),
   ("UpdateGasPrice", rollbackUpdateGasPrice),
   ("StopBlockChain", rollbackStopBlockChain)]

/-- rootKernelMap: the root-only methods. -/
def rootKernelMap : List String :=
  ["CreateBlockChain", "StopBlockChain"]

/-- Kernel.Run: method lookup, root-only gate, then the forward handler (the
mutex serialization is outside a single invocation and is not modelled). -/
def Run (k : Kernel) (env : Env) (d : TxDesc) (st : KState) : Option KErr × KState :=
  match runKernelFuncMap.lookup d.method with
  | none => (some .methodNotImplemented, st)
  | some h =>
    if rootKernelMap.contains d.method && k.bcName != "xuper" then
      (some .permissionDenied, st)
    else h k env d st

/-- Kernel.Rollback: method lookup in the rollback table, root-only gate,
then the rollback handler. -/
def Rollback (k : Kernel) (env : Env) (d : TxDesc) (st : KState) : Option KErr × KState :=
  match rollbackKernelFuncMap.lookup d.method with
  | none => (some .methodNotImplemented, st)
  | some h =>
    if rootKernelMap.contains d.method && k.bcName != "xuper" then
      (some .permissionDenied, st)
    else h k env d st

/-! ### Concrete fixtures used by witnesses and counterexamples -/

/-- A sample gas price. -/
def gas1 : GasPrice := { cpuRate := 1, memRate := 1, diskRate := 1, xfeeRate := 1 }

/-- A sample live reserved/forbidden invoke request. -/
def inv1 : InvokeRequest :=
  { moduleName := "wasm", contractName := "banned", methodName := "run",
    args := [("a", "x")] }

/-- A sample replacement invoke request. -/
def inv2 : InvokeRequest :=
  { moduleName := "wasm", contractName := "banned2", methodName := "run2",
    args := [] }

/-- A sample live StateMeta. -/
def meta0 : StateMeta :=
  { maxBlockSize := 1048576, irreversibleSlideWindow := 20,
    newAccountResourceAmount := 100, gasPrice := gas1,
    forbiddenContract := inv1, reservedContracts := [inv1] }

/-- A sample carrying transaction whose source address is whitelisted. -/
def tx0 : Tx :=
  { txid := "T0", fromAddrs := ["addrA"], amounts := [("side1", 500)] }

/-- The root-chain kernel instance. -/
def k0 : Kernel :=
  { datapath := "/data/blockchain", bcName := "xuper", registerPresent := true,
    kernelConfig :=
      { newChainWhiteList := ["addrA"], disableCreateChainWhiteList := false,
        minNewChainAmount := 100, enableStopChain := true,
        modifyBlockAddr := "modAddr" } }

/-- An all-success oracle environment. -/
def baseEnv : Env :=
  { contextPresent := true, rootConfigParseOk := true, ledgerNoFee := false,
    mkdirErr := none, writeFileErr := none, kvParseErr := none,
    cryptoParseErr := none, newLedgerErr := none, genRootTxErr := none,
    formatBlockErr := none, newUtxoVMErr := none, initPermErr := none,
    trashMkdirErr := none, renameErr := none, registerErr := none,
    unloadErr := none, updateMetaErr := none, createClientOk := true,
    getKeyOk := true, addrMatch := true, verifyECDSAok := true,
    verifyECDSAerr := none, ledgerTx := none, digestErr := none,
    updateBCDerr := none }

/-- A starting state: no side-chain directories, empty event log. -/
def st0 : KState :=
  { dirs := [], trashNames := [], meta := meta0, events := [] }

/-- Descriptor for a historical rewrite whose signature fails verification. -/
def c1desc : TxDesc :=
  { method := "UpdateBlockChainData",
    args := [("txid", .str "ab"), ("publicKey", .str "PKJSON"), ("sign", .str "cd")],
    tx := tx0 }

/-- The stored transaction targeted by the rewrite fixtures. -/
def stored1 : StoredTx :=
  { txid := "RAW", desc := "D", txOutputsExt := [{ bucket := "b1" }] }

/-- Oracles for the rewrite: address matches, the referenced transaction
exists with one extended output, and VerifyECDSA reports failure with a nil
error. -/
def c1env : Env :=
  { baseEnv with verifyECDSAok := false, ledgerTx := some stored1 }

/-- A new-account-resource-amount descriptor whose old value disagrees with
the live value 100. -/
def c2desc : TxDesc :=
  { method := "UpdateNewAccountResourceAmount",
    args := [("new_new_account_resource_amount", .num 1000),
             ("old_new_account_resource_amount", .num 500)], tx := tx0 }

/-- A stop descriptor passing every gate. -/
def c3desc : TxDesc :=
  { method := "StopBlockChain", args := [("name", .str "side1")], tx := tx0 }

/-- Oracles where UnloadBlockChain fails. -/
def c3env : Env := { baseEnv with unloadErr := some "unload failed" }

/-- A reserved-contract descriptor whose old list is empty (length 0) while
the live list has one element. -/
def c4desc : TxDesc :=
  { method := "UpdateReservedContract",
    args := [("old_reserved_contracts", .invList []),
             ("new_reserved_contracts", .invList [inv2])], tx := tx0 }

/-- Oracles where the kvengine extraction from the genesis JSON fails. -/
def c5env : Env := { baseEnv with kvParseErr := some "bad kv json" }

/-! ### Helper lemmas -/

/-- A path never survives filtering itself out (`os.RemoveAll` model). -/
theorem contains_filter_ne (l : List String) (p : String) :
    (l.filter (fun q => q != p)).contains p = false := by
  rw [Bool.eq_false_iff]
  intro hc
  have hm : p ∈ l.filter (fun q => q != p) := List.elem_iff.mp hc
  rw [List.mem_filter] at hm
  simp at hm

/-- An args map whose entries agree with its own lookups matches itself. -/
theorem reservedCmp_self (l : List InvokeRequest)
    (h : l.all (fun r => argsWF r) = true) : reservedCmp l l = true := by
  induction l with
  | nil => rfl
  | cons r rest ih =>
    rw [List.all_cons, Bool.and_eq_true] at h
    have hm : invMatch r r = true := by
      have h1 := h.1
      rw [argsWF] at h1
      simp [invMatch, h1]
    simp [reservedCmp, hm, ih h.2]

/-- Is the argument a number. -/
def isNumOpt : Option AVal → Bool
  | some (.num _) => true
  | _ => false

/-- Is the argument a gas-price record. -/
def isGasOpt : Option AVal → Bool
  | some (.gas _) => true
  | _ => false

/-- Is the argument an invoke-request record. -/
def isInvOpt : Option AVal → Bool
  | some (.inv _) => true
  | _ => false

/-- Is the argument an invoke-request list all of whose module names are
non-empty. -/
def isInvListNE : Option AVal → Bool
  | some (.invList l) => l.all (fun r => r.moduleName != "")
  | _ => false

/-- Shape extraction for a number-typed argument. -/
theorem isNumOpt_shape : (o : Option AVal) → isNumOpt o = true → ∃ v, o = some (.num v)
  | some (.num v), _ => ⟨v, rfl⟩
  | none, h => Bool.noConfusion h
  | some (.str _), h => Bool.noConfusion h
  | some (.gas _), h => Bool.noConfusion h
  | some (.inv _), h => Bool.noConfusion h
  | some (.invList _), h => Bool.noConfusion h

/-- Shape extraction for a gas-price-typed argument. -/
theorem isGasOpt_shape : (o : Option AVal) → isGasOpt o = true → ∃ g, o = some (.gas g)
  | some (.gas g), _ => ⟨g, rfl⟩
  | none, h => Bool.noConfusion h
  | some (.str _), h => Bool.noConfusion h
  | some (.num _), h => Bool.noConfusion h
  | some (.inv _), h => Bool.noConfusion h
  | some (.invList _), h => Bool.noConfusion h

/-- Shape extraction for an invoke-request-typed argument. -/
theorem isInvOpt_shape : (o : Option AVal) → isInvOpt o = true → ∃ r, o = some (.inv r)
  | some (.inv r), _ => ⟨r, rfl⟩
  | none, h => Bool.noConfusion h
  | some (.str _), h => Bool.noConfusion h
  | some (.num _), h => Bool.noConfusion h
  | some (.gas _), h => Bool.noConfusion h
  | some (.invList _), h => Bool.noConfusion h

/-- Shape extraction for a well-moduled invoke-request list argument. -/
theorem isInvListNE_shape : (o : Option AVal) → isInvListNE o = true →
    ∃ l, o = some (.invList l) ∧ l.all (fun r => r.moduleName != "") = true
  | some (.invList l), h => ⟨l, rfl, h⟩
  | none, h => Bool.noConfusion h
  | some (.str _), h => Bool.noConfusion h
  | some (.num _), h => Bool.noConfusion h
  | some (.gas _), h => Bool.noConfusion h
  | some (.inv _), h => Bool.noConfusion h

/-- The premise of the round-trip law, per parameter-update method: the new
argument is present with its expected shape, the old argument is present and
equal to the live StateMeta value (and for the record-valued parameters the
live args maps behave as maps). -/
def paramReady (d : TxDesc) (m : StateMeta) : Bool :=
  if d.method = "UpdateMaxBlockSize" then
    isNumOpt (lookupArg d "new_block_size") &&
    (lookupArg d "old_block_size" == some (.num m.maxBlockSize))
  else if d.method = "UpdateIrreversibleSlideWindow" then
    isNumOpt (lookupArg d "new_irreversible_slide_window") &&
    (lookupArg d "old_irreversible_slide_window" == some (.num m.irreversibleSlideWindow))
  else if d.method = "UpdateNewAccountResourceAmount" then
    isNumOpt (lookupArg d "new_new_account_resource_amount") &&
    (lookupArg d "old_new_account_resource_amount" == some (.num m.newAccountResourceAmount))
  else if d.method = "UpdateGasPrice" then
    isGasOpt (lookupArg d "new_gas_price") &&
    (lookupArg d "old_gas_price" == some (.gas m.gasPrice))
  else if d.method = "UpdateForbiddenContract" then
    isInvOpt (lookupArg d "new_forbidden_contract") &&
    (lookupArg d "old_forbidden_contract" == some (.inv m.forbiddenContract)) &&
    argsWF m.forbiddenContract
  else if d.method = "UpdateReservedContract" then
    isInvListNE (lookupArg d "new_reserved_contracts") &&
    (lookupArg d "old_reserved_contracts" == some (.invList m.reservedContracts)) &&
    m.reservedContracts.all (fun r => r.moduleName != "") &&
    m.reservedContracts.all (fun r => argsWF r)
  else false

/-- Round trip for UpdateMaxBlockSize. -/
theorem c9_maxBlockSize (k : Kernel) (env : Env) (d : TxDesc) (st : KState) (nv : Int)
    (hm : d.method = "UpdateMaxBlockSize")
    (hctx : env.contextPresent = true)
    (herr : env.updateMetaErr = none)
    (hnew : lookupArg d "new_block_size" = some (.num nv))
    (hold : lookupArg d "old_block_size" = some (.num st.meta.maxBlockSize)) :
    (Run k env d st).1 = none ∧
    (Rollback k env d (Run k env d st).2).1 = none ∧
    (Rollback k env d (Run k env d st).2).2.meta = st.meta := by
  have hl : runKernelFuncMap.lookup "UpdateMaxBlockSize" = some runUpdateMaxBlockSize := rfl
  have hl2 : rollbackKernelFuncMap.lookup "UpdateMaxBlockSize" =
    some rollbackUpdateMaxBlockSize := rfl
  have hroot : "UpdateMaxBlockSize" ∉ rootKernelMap := by decide
  have hrun : Run k env d st =
      (none, { st with
        meta := { st.meta with maxBlockSize := nv },
        events := st.events ++ [Event.metaUpdate "UpdateMaxBlockSize"] }) := by
    simp [Run, hm, hl, hroot, runUpdateMaxBlockSize, hctx,
      validateUpdateMaxBlockSize, validateUpdateMaxBlockSizeCore, checkNumArg,
      hnew, hold, numArg, setMeta, herr]
  have hroll : Rollback k env d
      ({ st with
        meta := { st.meta with maxBlockSize := nv },
        events := st.events ++ [Event.metaUpdate "UpdateMaxBlockSize"] } : KState) =
      (none, { st with
        meta := st.meta,
        events := (st.events ++ [Event.metaUpdate "UpdateMaxBlockSize"]) ++
          [Event.metaUpdate "UpdateMaxBlockSize"] }) := by
    simp [Rollback, hm, hl2, hroot, rollbackUpdateMaxBlockSize, hctx,
      validateUpdateMaxBlockSize, validateUpdateMaxBlockSizeCore, checkNumArg,
      hnew, hold, numArg, setMeta, herr]
  refine ⟨by rw [hrun], ?_, ?_⟩
  · rw [hrun, hroll]
  · rw [hrun, hroll]

/-- Round trip for UpdateIrreversibleSlideWindow. -/
theorem c9_irreversibleSlideWindow (k : Kernel) (env : Env) (d : TxDesc) (st : KState)
    (nv : Int)
    (hm : d.method = "UpdateIrreversibleSlideWindow")
    (hctx : env.contextPresent = true)
    (herr : env.updateMetaErr = none)
    (hnew : lookupArg d "new_irreversible_slide_window" = some (.num nv))
    (hold : lookupArg d "old_irreversible_slide_window" =
      some (.num st.meta.irreversibleSlideWindow)) :
    (Run k env d st).1 = none ∧
    (Rollback k env d (Run k env d st).2).1 = none ∧
    (Rollback k env d (Run k env d st).2).2.meta = st.meta := by
  have hl : runKernelFuncMap.lookup "UpdateIrreversibleSlideWindow" =
    some runUpdateIrreversibleSlideWindow := rfl
  have hl2 : rollbackKernelFuncMap.lookup "UpdateIrreversibleSlideWindow" =
    some rollbackUpdateIrreversibleSlideWindow := rfl
  have hroot : "UpdateIrreversibleSlideWindow" ∉ rootKernelMap := by decide
  have hrun : Run k env d st =
      (none, { st with
        meta := { st.meta with irreversibleSlideWindow := nv },
        events := st.events ++ [Event.metaUpdate "UpdateIrreversibleSlideWindow"] }) := by
    simp [Run, hm, hl, hroot, runUpdateIrreversibleSlideWindow, hctx,
      validateUpdateIrreversibleSlideWindow, validateUpdateIrreversibleSlideWindowCore,
      checkNumArg, hnew, hold, numArg, setMeta, herr]
  have hroll : Rollback k env d
      ({ st with
        meta := { st.meta with irreversibleSlideWindow := nv },
        events := st.events ++ [Event.metaUpdate "UpdateIrreversibleSlideWindow"] } : KState) =
      (none, { st with
        meta := st.meta,
        events := (st.events ++ [Event.metaUpdate "UpdateIrreversibleSlideWindow"]) ++
          [Event.metaUpdate "UpdateIrreversibleSlideWindow"] }) := by
    simp [Rollback, hm, hl2, hroot, rollbackUpdateIrreversibleSlideWindow, hctx,
      validateUpdateIrreversibleSlideWindow, validateUpdateIrreversibleSlideWindowCore,
      checkNumArg, hnew, hold, numArg, setMeta, herr]
  refine ⟨by rw [hrun], ?_, ?_⟩
  · rw [hrun, hroll]
  · rw [hrun, hroll]

/-- Round trip for UpdateNewAccountResourceAmount (under the old = live
premise the discarded guard does not matter). -/
theorem c9_newAccountResourceAmount (k : Kernel) (env : Env) (d : TxDesc) (st : KState)
    (nv : Int)
    (hm : d.method = "UpdateNewAccountResourceAmount")
    (hctx : env.contextPresent = true)
    (herr : env.updateMetaErr = none)
    (hnew : lookupArg d "new_new_account_resource_amount" = some (.num nv))
    (hold : lookupArg d "old_new_account_resource_amount" =
      some (.num st.meta.newAccountResourceAmount)) :
    (Run k env d st).1 = none ∧
    (Rollback k env d (Run k env d st).2).1 = none ∧
    (Rollback k env d (Run k env d st).2).2.meta = st.meta := by
  have hl : runKernelFuncMap.lookup "UpdateNewAccountResourceAmount" =
    some runUpdateNewAccountResourceAmount := rfl
  have hl2 : rollbackKernelFuncMap.lookup "UpdateNewAccountResourceAmount" =
    some rollbackUpdateNewAccountResourceAmount := rfl
  have hroot : "UpdateNewAccountResourceAmount" ∉ rootKernelMap := by decide
  have hrun : Run k env d st =
      (none, { st with
        meta := { st.meta with newAccountResourceAmount := nv },
        events := st.events ++ [Event.metaUpdate "UpdateNewAccountResourceAmount"] }) := by
    simp [Run, hm, hl, hroot, runUpdateNewAccountResourceAmount, hctx,
      validateUpdateNewAccountResourceAmount, validateUpdateNewAccountResourceAmountCore,
      checkNumArg, hnew, hold, numArg, setMeta, herr]
  have hroll : Rollback k env d
      ({ st with
        meta := { st.meta with newAccountResourceAmount := nv },
        events := st.events ++ [Event.metaUpdate "UpdateNewAccountResourceAmount"] } : KState) =
      (none, { st with
        meta := st.meta,
        events := (st.events ++ [Event.metaUpdate "UpdateNewAccountResourceAmount"]) ++
          [Event.metaUpdate "UpdateNewAccountResourceAmount"] }) := by
    simp [Rollback, hm, hl2, hroot, rollbackUpdateNewAccountResourceAmount, hctx,
      validateUpdateNewAccountResourceAmount, validateUpdateNewAccountResourceAmountCore,
      checkNumArg, hnew, hold, numArg, setMeta, herr]
  refine ⟨by rw [hrun], ?_, ?_⟩
  · rw [hrun, hroll]
  · rw [hrun, hroll]

/-- Round trip for UpdateGasPrice. -/
theorem c9_gasPrice (k : Kernel) (env : Env) (d : TxDesc) (st : KState) (gnew : GasPrice)
    (hm : d.method = "UpdateGasPrice")
    (hctx : env.contextPresent = true)
    (herr : env.updateMetaErr = none)
    (hnew : lookupArg d "new_gas_price" = some (.gas gnew))
    (hold : lookupArg d "old_gas_price" = some (.gas st.meta.gasPrice)) :
    (Run k env d st).1 = none ∧
    (Rollback k env d (Run k env d st).2).1 = none ∧
    (Rollback k env d (Run k env d st).2).2.meta = st.meta := by
  have hl : runKernelFuncMap.lookup "UpdateGasPrice" = some runUpdateGasPrice := rfl
  have hl2 : rollbackKernelFuncMap.lookup "UpdateGasPrice" = some rollbackUpdateGasPrice := rfl
  have hroot : "UpdateGasPrice" ∉ rootKernelMap := by decide
  have hrun : Run k env d st =
      (none, { st with
        meta := { st.meta with gasPrice := gnew },
        events := st.events ++ [Event.metaUpdate "UpdateGasPrice"] }) := by
    simp [Run, hm, hl, hroot, runUpdateGasPrice, hctx,
      validateUpdateGasPrice, validateUpdateGasPriceCore, hnew, hold, setMeta, herr]
  have hroll : Rollback k env d
      ({ st with
        meta := { st.meta with gasPrice := gnew },
        events := st.events ++ [Event.metaUpdate "UpdateGasPrice"] } : KState) =
      (none, { st with
        meta := st.meta,
        events := (st.events ++ [Event.metaUpdate "UpdateGasPrice"]) ++
          [Event.metaUpdate "UpdateGasPrice"] }) := by
    simp [Rollback, hm, hl2, hroot, rollbackUpdateGasPrice, hctx,
      validateUpdateGasPrice, validateUpdateGasPriceCore, hold, setMeta, herr]
  refine ⟨by rw [hrun], ?_, ?_⟩
  · rw [hrun, hroll]
  · rw [hrun, hroll]

/-- Round trip for UpdateForbiddenContract. -/
theorem c9_forbiddenContract (k : Kernel) (env : Env) (d : TxDesc) (st : KState)
    (fnew : InvokeRequest)
    (hm : d.method = "UpdateForbiddenContract")
    (hctx : env.contextPresent = true)
    (herr : env.updateMetaErr = none)
    (hnew : lookupArg d "new_forbidden_contract" = some (.inv fnew))
    (hold : lookupArg d "old_forbidden_contract" = some (.inv st.meta.forbiddenContract))
    (hwf : argsWF st.meta.forbiddenContract = true) :
    (Run k env d st).1 = none ∧
    (Rollback k env d (Run k env d st).2).1 = none ∧
    (Rollback k env d (Run k env d st).2).2.meta = st.meta := by
  have hl : runKernelFuncMap.lookup "UpdateForbiddenContract" =
    some runUpdateForbiddenContract := rfl
  have hl2 : rollbackKernelFuncMap.lookup "UpdateForbiddenContract" =
    some rollbackUpdateForbiddenContract := rfl
  have hroot : "UpdateForbiddenContract" ∉ rootKernelMap := by decide
  rw [argsWF] at hwf
  have hrun : Run k env d st =
      (none, { st with
        meta := { st.meta with forbiddenContract := fnew },
        events := st.events ++ [Event.metaUpdate "UpdateForbiddenContract"] }) := by
    simp [Run, hm, hl, hroot, runUpdateForbiddenContract, hctx,
      validateUpdateForbiddenContract, validateUpdateForbiddenContractCore,
      hnew, hold, hwf, setMeta, herr]
  have hroll : Rollback k env d
      ({ st with
        meta := { st.meta with forbiddenContract := fnew },
        events := st.events ++ [Event.metaUpdate "UpdateForbiddenContract"] } : KState) =
      (none, { st with
        meta := st.meta,
        events := (st.events ++ [Event.metaUpdate "UpdateForbiddenContract"]) ++
          [Event.metaUpdate "UpdateForbiddenContract"] }) := by
    simp [Rollback, hm, hl2, hroot, rollbackUpdateForbiddenContract, hctx,
      validateUpdateForbiddenContract, validateUpdateForbiddenContractCore,
      hold, setMeta, herr]
  refine ⟨by rw [hrun], ?_, ?_⟩
  · rw [hrun, hroll]
  · rw [hrun, hroll]

/-- Round trip for UpdateReservedContract. -/
theorem c9_reservedContract (k : Kernel) (env : Env) (d : TxDesc) (st : KState)
    (lnew : List InvokeRequest)
    (hm : d.method = "UpdateReservedContract")
    (hctx : env.contextPresent = true)
    (herr : env.updateMetaErr = none)
    (hnew : lookupArg d "new_reserved_contracts" = some (.invList lnew))
    (hnewm : lnew.all (fun r => r.moduleName != "") = true)
    (hold : lookupArg d "old_reserved_contracts" = some (.invList st.meta.reservedContracts))
    (holdm : st.meta.reservedContracts.all (fun r => r.moduleName != "") = true)
    (hwf : st.meta.reservedContracts.all (fun r => argsWF r) = true) :
    (Run k env d st).1 = none ∧
    (Rollback k env d (Run k env d st).2).1 = none ∧
    (Rollback k env d (Run k env d st).2).2.meta = st.meta := by
  have hl : runKernelFuncMap.lookup "UpdateReservedContract" =
    some runUpdateReservedContract := rfl
  have hl2 : rollbackKernelFuncMap.lookup "UpdateReservedContract" =
    some rollbackUpdateReservedContract := rfl
  have hroot : "UpdateReservedContract" ∉ rootKernelMap := by decide
  have hcmp : reservedCmp st.meta.reservedContracts st.meta.reservedContracts = true :=
    reservedCmp_self _ hwf
  have hrun : Run k env d st =
      (none, { st with
        meta := { st.meta with reservedContracts := lnew },
        events := st.events ++ [Event.metaUpdate "UpdateReservedContracts"] }) := by
    simp [Run, hm, hl, hroot, runUpdateReservedContract, hctx,
      validateUpdateReservedContract, validateUpdateReservedContractCore,
      checkReservedArg, hnew, hnewm, hold, holdm, hcmp, setMeta, herr]
  have hroll : Rollback k env d
      ({ st with
        meta := { st.meta with reservedContracts := lnew },
        events := st.events ++ [Event.metaUpdate "UpdateReservedContracts"] } : KState) =
      (none, { st with
        meta := st.meta,
        events := (st.events ++ [Event.metaUpdate "UpdateReservedContracts"]) ++
          [Event.metaUpdate "UpdateReservedContracts"] }) := by
    simp [Rollback, hm, hl2, hroot, rollbackUpdateReservedContract, hctx,
      validateUpdateReservedContract, validateUpdateReservedContractCore,
      checkReservedArg, hnew, hnewm, hold, holdm, setMeta, herr]
  refine ⟨by rw [hrun], ?_, ?_⟩
  · rw [hrun, hroll]
  · rw [hrun, hroll]

/-! ### Claim theorems -/

/-- Claim C1 (code bug): with the public key matching ModifyBlockAddr, the
referenced transaction present in the ledger, and ECDSA verification
reporting failure with a nil error, validateUpdateBlockChainData returns nil
(the source returns the nil `err` on the ok=false path) and
runUpdateBlockChainData goes on to persist the rewrite — contradicting the
claim that an invalid signature yields a non-nil error and is never
persisted. -/
theorem c1_invalid_signature_accepted :
  (validateUpdateBlockChainData k0 c1desc c1env st0).1 = none ∧
  (Run k0 c1env c1desc st0).1 = none ∧
  (Run k0 c1env c1desc st0).2.events.contains (Event.updateBCD "ab") = true := by
  decide

/-- Claim C2 (code bug): for UpdateNewAccountResourceAmount with live value
100 and old argument 500 (a mismatch), the forward handler returns nil and
the StateMeta setter is still called, updating the value to 1000 — the
source constructs the mismatch error with fmt.Errorf but discards it instead
of returning it. -/
theorem c2_mismatch_not_fatal :
  st0.meta.newAccountResourceAmount = 100 ∧
  (Run k0 baseEnv c2desc st0).1 = none ∧
  (Run k0 baseEnv c2desc st0).2.meta.newAccountResourceAmount = 1000 ∧
  (Run k0 baseEnv c2desc st0).2.events.contains
    (Event.metaUpdate "UpdateNewAccountResourceAmount") = true := by
  decide

/-- Claim C3 counterexample: a StopBlockChain descriptor passes every gate,
the register UnloadBlockChain fails, yet runStopBlockChain returns nil — the
unload error is swallowed, contrary to the claim that it is propagated. -/
theorem c3_counterexample :
  c3env.unloadErr = some "unload failed" ∧
  Run k0 c3env c3desc st0 = (none, { st0 with events := [Event.unloadChain "side1"] }) := by
  decide

/-- Claim C4 counterexample: the old reserved-contracts list is empty while
the live list has one element — the lengths differ — yet
runUpdateReservedContract succeeds and installs the new list, contrary to
the claim that a length difference yields a state-mismatch error. -/
theorem c4_counterexample :
  st0.meta.reservedContracts.length = 1 ∧
  (Run k0 baseEnv c4desc st0).1 = none ∧
  (Run k0 baseEnv c4desc st0).2.meta.reservedContracts = [inv2] := by
  decide

/-- Claim C5 counterexample: the side-chain directory is created and the
genesis file written, then the kvengine extraction fails; CreateBlockChain
returns the error but the created directory remains on disk, contrary to the
claim that every post-creation failure removes it. -/
theorem c5_counterexample :
  (CreateBlockChain k0 c5env "side1" "genesis" st0).1 = some (.msg "bad kv json") ∧
  (CreateBlockChain k0 c5env "side1" "genesis" st0).2.dirs.contains
    "/data/blockchain/side1" = true := by
  decide

/-- Claim C6 counterexample: validateUpdateBlockChainData is not pure — on a
well-formed request it performs a ledger read and a state-model cache
deletion, recorded in the state it returns. -/
theorem c6_counterexample :
  (validateUpdateBlockChainData k0 c1desc c1env st0).2 ≠ st0 ∧
  (validateUpdateBlockChainData k0 c1desc c1env st0).2.events =
    [Event.queryTx "ab", Event.bucketCacheDelete "b1" "RAW" 0] := by
  decide

/-- Claim C8: the forward table and the rollback table register exactly the
same method names, in the same order. -/
theorem c8_run_rollback_tables_same_methods :
  runKernelFuncMap.map Prod.fst = rollbackKernelFuncMap.map Prod.fst := rfl

/-- Claim C3 (amended part): when every gate of runStopBlockChain passes, the
handler returns nil and only records the unload attempt — whatever
UnloadBlockChain returned, including an error; the unload error is swallowed,
a second Run-level swallow besides the documented BlockChainExist one. -/
theorem c3_stop_swallows_unload_error (k : Kernel) (env : Env) (d : TxDesc) (st : KState)
    (bcName : String)
    (hen : k.kernelConfig.enableStopChain = true)
    (hname : lookupArg d "name" = some (.str bcName))
    (hne : (bcName == "") = false)
    (hnx : (bcName == "xuper") = false)
    (hwl : fromAddrInList d.tx k.kernelConfig.newChainWhiteList = true ∨
           k.kernelConfig.disableCreateChainWhiteList = true) :
    runStopBlockChain k env d st =
      (none, { st with events := st.events ++ [Event.unloadChain bcName] }) := by
  have hg : (!(fromAddrInList d.tx k.kernelConfig.newChainWhiteList) &&
             !k.kernelConfig.disableCreateChainWhiteList) = false := by
    rcases hwl with h | h <;> simp [h]
  cases hu : env.unloadErr <;>
    simp [runStopBlockChain, hen, hname, hne, hnx, hg, hu]

/-- Claim C3 witness: concrete instance of the amended statement, with the
unload oracle failing. -/
theorem c3_witness :
  runStopBlockChain k0 c3env c3desc st0 =
    (none, { st0 with events := st0.events ++ [Event.unloadChain "side1"] }) :=
  c3_stop_swallows_unload_error k0 c3env c3desc st0 "side1" rfl rfl rfl rfl
    (Or.inl (by decide))

/-- Claim C4 (amended part): for a validated descriptor,
runUpdateReservedContract succeeds exactly when the old list deep-equals the
live list at every index the two lists share (`reservedCmp`); the lengths are
never compared. -/
theorem c4_common_prefix_guard (k : Kernel) (env : Env) (d : TxDesc) (st : KState)
    (oldP newP : List InvokeRequest)
    (hctx : env.contextPresent = true)
    (herr : env.updateMetaErr = none)
    (hold : lookupArg d "old_reserved_contracts" = some (.invList oldP))
    (holdm : oldP.all (fun r => r.moduleName != "") = true)
    (hnew : lookupArg d "new_reserved_contracts" = some (.invList newP))
    (hnewm : newP.all (fun r => r.moduleName != "") = true) :
    ((runUpdateReservedContract k env d st).1 = none ↔
      reservedCmp oldP st.meta.reservedContracts = true) := by
  have hv : validateUpdateReservedContractCore d "old_reserved_contracts" = .ok oldP := by
    simp [validateUpdateReservedContractCore, checkReservedArg, hold, holdm, hnew, hnewm]
  have hv2 : validateUpdateReservedContractCore d "new_reserved_contracts" = .ok newP := by
    simp [validateUpdateReservedContractCore, checkReservedArg, hold, holdm, hnew, hnewm]
  cases hcmp : reservedCmp oldP st.meta.reservedContracts <;>
    simp [runUpdateReservedContract, hctx, validateUpdateReservedContract, hv, hv2,
      hcmp, setMeta, herr]

/-- Claim C4 witness: concrete instance of the amended guard, on a matching
one-element old list. -/
theorem c4_witness :
  ((runUpdateReservedContract k0 baseEnv
    { method := "UpdateReservedContract",
      args := [("old_reserved_contracts", .invList [inv1]),
               ("new_reserved_contracts", .invList [inv2])], tx := tx0 } st0).1 = none ↔
    reservedCmp [inv1] st0.meta.reservedContracts = true) :=
  c4_common_prefix_guard k0 baseEnv
    { method := "UpdateReservedContract",
      args := [("old_reserved_contracts", .invList [inv1]),
               ("new_reserved_contracts", .invList [inv2])], tx := tx0 } st0
    [inv1] [inv2] rfl rfl rfl (by decide) rfl (by decide)

/-- Claim C5 (amended part): when the failing step is neither the
kvengine/crypto extraction nor the permission-model initialization, an error
return of CreateBlockChain implies the side-chain directory is gone. -/
theorem c5_cleanup_on_late_failures (k : Kernel) (env : Env) (name data : String)
    (st : KState)
    (hkv : env.kvParseErr = none)
    (hcr : env.cryptoParseErr = none)
    (hperm : env.initPermErr = none)
    (hdir : st.dirs.contains (k.datapath ++ "/" ++ name) = false)
    (herr : (CreateBlockChain k env name data st).1.isSome = true) :
    (CreateBlockChain k env name data st).2.dirs.contains
      (k.datapath ++ "/" ++ name) = false := by
  simp only [CreateBlockChain, hkv, hcr, hperm] at herr ⊢
  cases hbc : k.bcName != "xuper" <;> simp only [hbc] at herr ⊢
  · rw [hdir] at herr ⊢
    simp only [Bool.false_eq_true, if_false] at herr ⊢
    cases hmk : env.mkdirErr <;> simp only [hmk] at herr ⊢
    · cases hwf : env.writeFileErr <;> simp only [hwf] at herr ⊢
      · cases hnl : env.newLedgerErr <;> simp only [hnl] at herr ⊢
        · cases hgt : env.genRootTxErr <;> simp only [hgt] at herr ⊢
          · cases hfb : env.formatBlockErr <;> simp only [hfb] at herr ⊢
            · cases hvm : env.newUtxoVMErr <;> simp only [hvm] at herr ⊢
              · simp at herr
              · exact contains_filter_ne _ _
            · exact contains_filter_ne _ _
          · exact contains_filter_ne _ _
        · exact contains_filter_ne _ _
      · exact contains_filter_ne _ _
    · exact hdir
  · exact hdir

/-- Claim C5 witness: concrete instance of the amended statement on a
ledger-open failure. -/
theorem c5_witness :
  (CreateBlockChain k0 { baseEnv with newLedgerErr := some "open failed" }
    "side1" "genesis" st0).2.dirs.contains ("/data/blockchain" ++ "/" ++ "side1") = false :=
  c5_cleanup_on_late_failures k0 { baseEnv with newLedgerErr := some "open failed" }
    "side1" "genesis" st0 rfl rfl rfl (by decide) (by decide)

/-- Claim C6 (amended part): every argument validator other than
validateUpdateBlockChainData leaves the kernel-observable state exactly as it
found it — no ledger read, no cache mutation, no event. -/
theorem c6_other_validators_pure (d : TxDesc) (st : KState) (name : String) (env : Env) :
    (validateUpdateMaxBlockSize d st).2 = st ∧
    (validateUpdateIrreversibleSlideWindow d st).2 = st ∧
    (validateUpdateNewAccountResourceAmount d st).2 = st ∧
    (validateUpdateGasPrice d name st).2 = st ∧
    (validateUpdateForbiddenContract d name st).2 = st ∧
    (validateUpdateReservedContract d name st).2 = st ∧
    (validateCreateBC d env st).2 = st :=
  ⟨rfl, rfl, rfl, rfl, rfl, rfl, rfl⟩

/-- Claim C7: Run and Rollback fail with MethodNotImplemented on a method
absent from their table and with PermissionDenied on a root-only method
invoked from a chain other than xuper; in both cases the state is returned
untouched, no handler having run. -/
theorem c7_dispatch_gates (k : Kernel) (env : Env) (d : TxDesc) (st : KState) :
    (runKernelFuncMap.lookup d.method = none →
      Run k env d st = (some .methodNotImplemented, st)) ∧
    (rollbackKernelFuncMap.lookup d.method = none →
      Rollback k env d st = (some .methodNotImplemented, st)) ∧
    (rootKernelMap.contains d.method = true → k.bcName ≠ "xuper" →
      Run k env d st = (some .permissionDenied, st) ∧
      Rollback k env d st = (some .permissionDenied, st)) := by
  refine ⟨?_, ?_, ?_⟩
  · intro h; simp [Run, h]
  · intro h; simp [Rollback, h]
  · intro hc hx
    have hm : d.method = "CreateBlockChain" ∨ d.method = "StopBlockChain" := by
      have := List.elem_iff.mp hc
      simpa [rootKernelMap] using this
    have hb : (k.bcName != "xuper") = true := by simp [bne_iff_ne, hx]
    rcases hm with hm | hm
    · have hl : runKernelFuncMap.lookup "CreateBlockChain" = some runCreateBlockChain := rfl
      have hl2 : rollbackKernelFuncMap.lookup "CreateBlockChain" =
        some rollbackCreateBlockChain := rfl
      have hcc : rootKernelMap.contains "CreateBlockChain" = true := rfl
      have hmm : "CreateBlockChain" ∈ rootKernelMap := by decide
      constructor <;> simp [Run, Rollback, hm, hl, hl2, hcc, hmm, hb]
    · have hl : runKernelFuncMap.lookup "StopBlockChain" = some runStopBlockChain := rfl
      have hl2 : rollbackKernelFuncMap.lookup "StopBlockChain" =
        some rollbackStopBlockChain := rfl
      have hcc : rootKernelMap.contains "StopBlockChain" = true := rfl
      have hmm : "StopBlockChain" ∈ rootKernelMap := by decide
      constructor <;> simp [Run, Rollback, hm, hl, hl2, hcc, hmm, hb]

/-- A kernel instance living on a side chain. -/
def kSide : Kernel := { k0 with bcName := "side1" }

/-- A descriptor with an unregistered method name. -/
def dNope : TxDesc := { method := "NoSuchMethod", args := [], tx := tx0 }

/-- A root-only descriptor. -/
def dCreate : TxDesc := { method := "CreateBlockChain", args := [], tx := tx0 }

/-- Claim C7 witness: both gates exercised at concrete inputs. -/
theorem c7_witness :
  Run k0 baseEnv dNope st0 = (some .methodNotImplemented, st0) ∧
  Run kSide baseEnv dCreate st0 = (some .permissionDenied, st0) :=
  ⟨(c7_dispatch_gates k0 baseEnv dNope st0).1 rfl,
   ((c7_dispatch_gates kSide baseEnv dCreate st0).2.2 rfl (by decide)).1⟩

/-- Claim C9: for every parameter-update descriptor that validates and whose
old value equals the live StateMeta value, Run succeeds and the subsequent
Rollback of the same descriptor succeeds and restores StateMeta exactly: the
rollback writes the old value unconditionally. -/
theorem c9_run_rollback_restores_statemeta (k : Kernel) (env : Env) (d : TxDesc) (st : KState)
    (hctx : env.contextPresent = true)
    (herr : env.updateMetaErr = none)
    (hready : paramReady d st.meta = true) :
    (Run k env d st).1 = none ∧
    (Rollback k env d (Run k env d st).2).1 = none ∧
    (Rollback k env d (Run k env d st).2).2.meta = st.meta := by
  by_cases h1 : d.method = "UpdateMaxBlockSize"
  · simp only [paramReady, if_pos h1, Bool.and_eq_true, beq_iff_eq] at hready
    obtain ⟨ha, hb⟩ := hready
    obtain ⟨nv, hnv⟩ := isNumOpt_shape _ ha
    exact c9_maxBlockSize k env d st nv h1 hctx herr hnv hb
  by_cases h2 : d.method = "UpdateIrreversibleSlideWindow"
  · simp only [paramReady, if_neg h1, if_pos h2, Bool.and_eq_true, beq_iff_eq] at hready
    obtain ⟨ha, hb⟩ := hready
    obtain ⟨nv, hnv⟩ := isNumOpt_shape _ ha
    exact c9_irreversibleSlideWindow k env d st nv h2 hctx herr hnv hb
  by_cases h3 : d.method = "UpdateNewAccountResourceAmount"
  · simp only [paramReady, if_neg h1, if_neg h2, if_pos h3, Bool.and_eq_true,
      beq_iff_eq] at hready
    obtain ⟨ha, hb⟩ := hready
    obtain ⟨nv, hnv⟩ := isNumOpt_shape _ ha
    exact c9_newAccountResourceAmount k env d st nv h3 hctx herr hnv hb
  by_cases h4 : d.method = "UpdateGasPrice"
  · simp only [paramReady, if_neg h1, if_neg h2, if_neg h3, if_pos h4, Bool.and_eq_true,
      beq_iff_eq] at hready
    obtain ⟨ha, hb⟩ := hready
    obtain ⟨g, hg⟩ := isGasOpt_shape _ ha
    exact c9_gasPrice k env d st g h4 hctx herr hg hb
  by_cases h5 : d.method = "UpdateForbiddenContract"
  · simp only [paramReady, if_neg h1, if_neg h2, if_neg h3, if_neg h4, if_pos h5,
      Bool.and_eq_true, beq_iff_eq] at hready
    obtain ⟨⟨ha, hb⟩, hw⟩ := hready
    obtain ⟨r, hr⟩ := isInvOpt_shape _ ha
    exact c9_forbiddenContract k env d st r h5 hctx herr hr hb hw
  by_cases h6 : d.method = "UpdateReservedContract"
  · simp only [paramReady, if_neg h1, if_neg h2, if_neg h3, if_neg h4, if_neg h5,
      if_pos h6, Bool.and_eq_true, beq_iff_eq] at hready
    obtain ⟨⟨⟨ha, hb⟩, hm1⟩, hm2⟩ := hready
    obtain ⟨l, hl, hlm⟩ := isInvListNE_shape _ ha
    exact c9_reservedContract k env d st l h6 hctx herr hl hlm hb hm1 hm2
  · simp only [paramReady, if_neg h1, if_neg h2, if_neg h3, if_neg h4, if_neg h5,
      if_neg h6] at hready
    exact Bool.noConfusion hready

/-- Claim C9 witness: run-then-rollback of a concrete max-block-size update
with the old value matching the live 1048576. -/
theorem c9_witness :
  (Run k0 baseEnv
    { method := "UpdateMaxBlockSize",
      args := [("new_block_size", .num 2097152), ("old_block_size", .num 1048576)],
      tx := tx0 } st0).1 = none ∧
  (Rollback k0 baseEnv
    { method := "UpdateMaxBlockSize",
      args := [("new_block_size", .num 2097152), ("old_block_size", .num 1048576)],
      tx := tx0 }
    (Run k0 baseEnv
      { method := "UpdateMaxBlockSize",
        args := [("new_block_size", .num 2097152), ("old_block_size", .num 1048576)],
        tx := tx0 } st0).2).1 = none ∧
  (Rollback k0 baseEnv
    { method := "UpdateMaxBlockSize",
      args := [("new_block_size", .num 2097152), ("old_block_size", .num 1048576)],
      tx := tx0 }
    (Run k0 baseEnv
      { method := "UpdateMaxBlockSize",
        args := [("new_block_size", .num 2097152), ("old_block_size", .num 1048576)],
        tx := tx0 } st0).2).2.meta = st0.meta :=
  c9_run_rollback_restores_statemeta k0 baseEnv
    { method := "UpdateMaxBlockSize",
      args := [("new_block_size", .num 2097152), ("old_block_size", .num 1048576)],
      tx := tx0 } st0 rfl rfl (by decide)

/-- Claim C10: when the chain directory does not exist,
rollbackCreateBlockChain of a validated descriptor returns nil and leaves the
state untouched: nothing is moved to the trash and the register is not asked
to unload. -/
theorem c10_rollback_create_noop (k : Kernel) (env : Env) (d : TxDesc) (st : KState)
    (bcName bcData : String)
    (hval : validateCreateBCCore d env = .ok (bcName, bcData))
    (hdir : st.dirs.contains (k.datapath ++ "/" ++ bcName) = false) :
    rollbackCreateBlockChain k env d st = (none, st) := by
  have hdm : (k.datapath ++ "/" ++ bcName) ∉ st.dirs := by
    intro hm
    rw [← List.elem_iff (a := k.datapath ++ "/" ++ bcName)] at hm
    have hm2 : st.dirs.contains (k.datapath ++ "/" ++ bcName) = true := hm
    exact Bool.noConfusion (hdir.symm.trans hm2)
  simp [rollbackCreateBlockChain, validateCreateBC, hval, hdm]

/-- Claim C10 witness: concrete rollback of a never-created chain. -/
theorem c10_witness :
  rollbackCreateBlockChain k0 baseEnv
    { method := "CreateBlockChain",
      args := [("name", .str "side9"), ("data", .str "genesis")], tx := tx0 } st0 =
    (none, st0) :=
  c10_rollback_create_noop k0 baseEnv
    { method := "CreateBlockChain",
      args := [("name", .str "side9"), ("data", .str "genesis")], tx := tx0 } st0
    "side9" "genesis" rfl (by decide)

end Xuper
